import Mathlib

/-!
Shallow embedding of the connection-manager subsystem of the repository:
the files cassandra_connector_manager.py (class CassandraConnectorManager)
and cassandra_connector.py (class CassandraConnector). Python dicts are
modelled as association lists over String keys; Python truthiness of an
optional string value (absent key, None value, or empty string are all
falsy) is the Bool function truthyStr; side effects (filesystem reads,
HTTP calls, file writes, session creation and shutdown) are made explicit
as oracle inputs and output traces.
-/

deriving instance DecidableEq for Except

/-- Lookup in an association list modelling a Python dict (first binding wins;
dictPut below keeps keys unique, matching dict semantics). -/
def dictGet {α : Type} : List (String × α) → String → Option α
  | [], _ => none
  | (k, v) :: rest, key => if k = key then some v else dictGet rest key

/-- Update or insert a binding, modelling Python dict assignment d[k] = v. -/
def dictPut {α : Type} : List (String × α) → String → α → List (String × α)
  | [], key, v => [(key, v)]
  | (k, w) :: rest, key, v =>
      if k = key then (key, v) :: rest else (k, w) :: dictPut rest key v

/-- Python truthiness of an optional string: absent (none) and the empty
string are falsy, every other string is truthy. -/
def truthyStr : Option String → Bool
  | none => false
  | some s => !(s == "")

/-- Fuel-driven worker for pySplit: splits a character list on each
non-overlapping occurrence of the separator, scanning left to right, with
the characters of the piece in progress accumulated in reverse. The fuel
is instantiated with the length of the input, which the recursion never
exceeds, so the fuel-exhausted branch is unreachable. -/
def splitAux (sep : List Char) : Nat → List Char → List Char → List (List Char)
  | _, [], acc => [acc.reverse]
  | 0, rest, acc => [acc.reverse ++ rest]
  | Nat.succ fuel, c :: rest, acc =>
      if sep.isPrefixOf (c :: rest) && !sep.isEmpty then
        acc.reverse :: splitAux sep fuel (List.drop (sep.length - 1) rest) []
      else
        splitAux sep fuel rest (c :: acc)

/-- Python str.split with an explicit non-empty separator: splits on each
non-overlapping occurrence, keeping empty pieces, so the result always has
one more piece than there are separator occurrences. -/
def pySplit (s sep : String) : List String :=
  (splitAux sep.data s.data.length s.data []).map fun l => ⟨l⟩

/-- Fuel-driven worker for pyReplace, same fuel convention as splitAux. -/
def replaceAux (old new : List Char) : Nat → List Char → List Char
  | _, [] => []
  | 0, rest => rest
  | Nat.succ fuel, c :: rest =>
      if old.isPrefixOf (c :: rest) && !old.isEmpty then
        new ++ replaceAux old new fuel (List.drop (old.length - 1) rest)
      else
        c :: replaceAux old new fuel rest

/-- Python str.replace with a non-empty pattern: replaces every
non-overlapping occurrence, scanning left to right. -/
def pyReplace (s old new : String) : String :=
  ⟨replaceAux old.data new.data s.data.length s.data⟩

/-- Longest prefix of a string whose characters all satisfy p. -/
def pyTakeWhile (p : Char → Bool) (s : String) : String :=
  ⟨s.data.takeWhile p⟩

namespace CassandraConnector

/-! ### Session state of one CassandraConnector handle

The class fields _cluster and _session are modelled by a counter of
sessions the cluster object has handed out (each cluster.connect call
returns a fresh session, identified by a Nat), the id of the current
primary session (_session), and the list of session ids that have been
shut down. The constructor opens session 0, so a freshly built handle is
initConn. -/

structure ConnState where
  sessions_created : Nat
  primary : Nat
  shutdown : List Nat
deriving DecidableEq, Repr

/-- State of a connector right after construction: the constructor called
cluster.connect once, and that session (id 0) is the primary. -/
def initConn : ConnState :=
  { sessions_created := 1, primary := 0, shutdown := [] }

/-- Body of the session accessor of CassandraConnector (the property whose
signature is session(self, new=False, replace=False)). Returns the id of
the session handed to the caller and the updated connector state. The
source checks replace first: if replace is set it shuts down the primary,
connects a new session, installs it as primary, and returns it; otherwise
if new is set it returns a fresh untracked session; otherwise it returns
the primary. -/
def session (st : ConnState) (new : Bool) (replace : Bool) : Nat × ConnState :=
  if replace then
    (st.sessions_created,
     { sessions_created := st.sessions_created + 1,
       primary := st.sessions_created,
       shutdown := st.primary :: st.shutdown })
  else if new then
    (st.sessions_created, { st with sessions_created := st.sessions_created + 1 })
  else
    (st.primary, st)

end CassandraConnector

namespace CassandraConnectorManager

/-! ### The connection registry (class CassandraConnectorManager)

Connection parameters are modelled abstractly: the registry never inspects
them beyond Python truthiness of the kwargs dict, so connection_args is an
association list of string fields. Handles are identified by a Nat id.
Construction of a CassandraConnector opens a live network session, so it
is modelled by an oracle build function that either yields a handle or
fails (any exception the constructor may raise). -/

abbrev Params := List (String × String)

structure Handle where
  id : Nat
deriving DecidableEq, Repr

structure RegistryState where
  connection_params : List (String × Params)
  connections : List (String × Handle)
deriving DecidableEq, Repr

/-- Message of the ValueError raised when construction for a key fails. -/
def initFailedMsg (db_key : String) : String :=
  "Connection for \x27" ++ db_key ++ "\x27 could not be initialized."

/-- Message of the ValueError raised when no parameters are configured. -/
def notConfiguredMsg (db_key : String) : String :=
  "Connection parameters for \x27" ++ db_key ++ "\x27 not configured."

/-- Step 2 of get_connector: if db_key has no stored params and the call
supplied a truthy (non-empty) kwargs dict, store it. -/
def storeParamsIfNew (st : RegistryState) (db_key : String)
    (connection_args : Params) : RegistryState :=
  if (dictGet st.connection_params db_key).isNone && !connection_args.isEmpty then
    { st with connection_params := dictPut st.connection_params db_key connection_args }
  else st

/-- The method get_connector of CassandraConnectorManager: return the
cached handle if one exists; else possibly store the supplied params;
else build from stored params (caching on success, raising a ValueError
without caching on failure); else raise a not-configured ValueError.
Returns the Except result together with the post-call registry state. -/
def get_connector (build : Params → Except String Handle)
    (st : RegistryState) (db_key : String) (connection_args : Params) :
    Except String Handle × RegistryState :=
  match dictGet st.connections db_key with
  | some h => (.ok h, st)
  | none =>
    let st1 := storeParamsIfNew st db_key connection_args
    match dictGet st1.connection_params db_key with
    | some params =>
      match build params with
      | .ok h =>
          (.ok h, { st1 with connections := dictPut st1.connections db_key h })
      | .error _ => (.error (initFailedMsg db_key), st1)
    | none => (.error (notConfiguredMsg db_key), st1)

end CassandraConnectorManager

namespace CassandraConnector

/-! ### Secure-connect-bundle resolution

Embedding of _get_or_download_secure_connect_bundle and
_get_secure_connect_bundle_url. The astra_args dict is a structure of
optional string fields (absent key or None value modelled as none).
Filesystem state (os.path.exists / os.path.getmtime) and the two HTTP
calls are oracle inputs in ResolveEnv; the calls actually performed and
the cache write are reported in the ResolveResult trace. -/

structure AstraArgs where
  token : String
  scb : Option String := none
  endpoint : Option String := none
  datacenterID : Option String := none
  regionName : Option String := none
  bundleUrlTemplate : Option String := none
deriving DecidableEq, Repr

/-- One entry of the JSON list returned by the bundle-metadata endpoint. -/
structure BundleEntry where
  region : String
  downloadURL : String
deriving DecidableEq, Repr

/-- A network call made during bundle resolution: the authenticated POST to
the bundle-metadata endpoint, or the GET of a returned download URL. -/
inductive NetCall where
  | metadataPost (url : String) (bearerToken : String)
  | download (url : String)
deriving DecidableEq, Repr

/-- The staleness threshold 360 * 24 * 60 * 60 seconds from the source. -/
def SECONDS_360_DAYS : Int := 360 * 24 * 60 * 60

/-- The fixed cloud-provider domain suffix stripped from the endpoint host. -/
def PROVIDER_SUFFIX : String := ".apps.astra.datastax.com"

/-- Netloc (host) component of urlparse for the absolute URLs this code
handles: the text after the first // up to the next /, ? or #. -/
def urlparseNetloc (url : String) : String :=
  match pySplit url "//" with
  | _ :: rest :: _ =>
      pyTakeWhile (fun c => c != '?' && c != '#') ((pySplit rest "/").headD "")
  | _ => ""

/-- Lines 174-189 of cassandra_connector.py: if a truthy endpoint is
present, derive datacenterID and regionName from its host (strip the
provider suffix, split on the dash; the first five parts joined form the
datacenter id, the remaining parts joined form the region), keeping any
truthy explicitly supplied value in preference to the derived one; else
require a truthy datacenterID, raising a ValueError otherwise. -/
def deriveArgs (args : AstraArgs) : Except String AstraArgs :=
  if truthyStr args.endpoint then
    let host := urlparseNetloc (args.endpoint.getD "")
    let hostname_without_suffix := (pySplit host PROVIDER_SUFFIX).headD ""
    let parts := pySplit hostname_without_suffix "-"
    let datacenterID := String.intercalate "-" (parts.take 5)
    let regionName := String.intercalate "-" (parts.drop 5)
    .ok { args with
      datacenterID :=
        some (if truthyStr args.datacenterID then args.datacenterID.getD ""
              else datacenterID),
      regionName :=
        some (if truthyStr args.regionName then args.regionName.getD ""
              else regionName) }
  else if !truthyStr args.datacenterID then
    .error "Astra endpoint or datacenterID must be provided in args."
  else
    .ok args

/-- The cache directory os.path.join(gettempdir(), "cassandra-astra"),
with the temp root fixed to /tmp. -/
def scb_dir : String := "/tmp/cassandra-astra"

/-- The deterministic cache filename astra-secure-connect-{dc}[-{region}].zip. -/
def scb_filename (args : AstraArgs) : String :=
  let f := "astra-secure-connect-" ++ args.datacenterID.getD ""
  let f := if truthyStr args.regionName then f ++ "-" ++ args.regionName.getD ""
           else f
  f ++ ".zip"

/-- The full deterministic cache path for the bundle of args. -/
def scb_path_of (args : AstraArgs) : String := scb_dir ++ "/" ++ scb_filename args

/-- The metadata-endpoint URL: the bundleUrlTemplate override or the fixed
default, with the database-id placeholder replaced by the datacenter id. -/
def bundleUrlFor (args : AstraArgs) : String :=
  let url_template := args.bundleUrlTemplate.getD
    "https://api.astra.datastax.com/v2/databases/\x7bdatabase_id\x7d/secureBundleURL?all=true"
  pyReplace url_template "\x7bdatabase_id\x7d" (args.datacenterID.getD "")

/-- Lines 236-251 of cassandra_connector.py, after the POST succeeded:
given the parsed JSON body (none models JSON null), fail if it is null or
empty; otherwise default to the first downloadURL, and if a truthy
regionName is requested, use the first entry of that region, failing with
a not-found ValueError when no entry matches. -/
def get_secure_connect_bundle_url (args : AstraArgs)
    (data : Option (List BundleEntry)) : Except String String :=
  match data with
  | none => .error "Failed to get secure bundle URLs."
  | some l =>
    if h : l.length = 0 then .error "Failed to get secure bundle URLs."
    else
      let download_url := (l.get ⟨0, Nat.pos_of_ne_zero h⟩).downloadURL
      if truthyStr args.regionName then
        match l.find? (fun b => b.region == args.regionName.getD "") with
        | some b => .ok b.downloadURL
        | none =>
            .error ("Specific bundle for region \x27" ++ args.regionName.getD ""
                    ++ "\x27 not found.")
      else .ok download_url

/-- Oracle inputs for one call of _get_or_download_secure_connect_bundle:
the current wall-clock time, the cache-directory contents as a map from
path to mtime, whether raise_for_status passes on the metadata POST, the
parsed JSON body of that POST, and whether raise_for_status passes on the
download GET. -/
structure ResolveEnv where
  now : Int
  files : List (String × Int)
  metaOk : Bool
  metaData : Option (List BundleEntry)
  downloadOk : Bool
deriving DecidableEq, Repr

/-- Outcome of one call of _get_or_download_secure_connect_bundle: the
returned path or raised error, the network calls performed in order, and
the cache path written (overwritten) if any. -/
structure ResolveResult where
  result : Except String String
  calls : List NetCall
  wrote : Option String
deriving Repr

/-- Lines 170-209 of cassandra_connector.py: return a truthy explicit scb
path unchanged; else derive identifying fields (deriveArgs); if the cache
file exists and its age is within the staleness threshold return its path
with no network call; otherwise POST the metadata endpoint, pick a
download URL (get_secure_connect_bundle_url), GET it, write the cache
file, and return the cache path. -/
def get_or_download_secure_connect_bundle (env : ResolveEnv)
    (args0 : AstraArgs) : ResolveResult :=
  if truthyStr args0.scb then
    { result := .ok (args0.scb.getD ""), calls := [], wrote := none }
  else
    match deriveArgs args0 with
    | .error e => { result := .error e, calls := [], wrote := none }
    | .ok args =>
      let p := scb_path_of args
      let fresh :=
        match dictGet env.files p with
        | some m => decide (env.now - m ≤ SECONDS_360_DAYS)
        | none => false
      if fresh then { result := .ok p, calls := [], wrote := none }
      else
        let postCall := NetCall.metadataPost (bundleUrlFor args) args.token
        if !env.metaOk then
          { result := .error "HTTPError from the bundle-metadata request",
            calls := [postCall], wrote := none }
        else
          match get_secure_connect_bundle_url args env.metaData with
          | .error e => { result := .error e, calls := [postCall], wrote := none }
          | .ok u =>
            if !env.downloadOk then
              { result := .error "HTTPError from the bundle download",
                calls := [postCall, NetCall.download u], wrote := none }
            else
              { result := .ok p, calls := [postCall, NetCall.download u],
                wrote := some p }

end CassandraConnector

/-! ## Theorems -/

namespace CassandraConnectorManager

/-- Helper: step 2 of get_connector never touches the handle cache. -/
theorem storeParamsIfNew_connections (st : RegistryState) (db_key : String)
    (connection_args : Params) :
    (storeParamsIfNew st db_key connection_args).connections = st.connections := by
  unfold storeParamsIfNew
  split <;> rfl

/-- Helper: step 2 of get_connector never changes a stored binding. -/
theorem storeParamsIfNew_stored (st : RegistryState) (db_key : String)
    (connection_args p : Params)
    (hp : dictGet st.connection_params db_key = some p) :
    storeParamsIfNew st db_key connection_args = st := by
  unfold storeParamsIfNew
  simp [hp]

/-- C1: for every key that already has a cached handle in the registry, a
repeated get_connector call for that key returns that same handle and
leaves the registry state unchanged, for every build function and every
newly supplied parameter dict (so no reconstruction happens and no
comparison with the stored parameters is made). -/
theorem get_connector_cache_hit
    (build : Params → Except String Handle) (st : RegistryState)
    (db_key : String) (connection_args : Params) (h : Handle)
    (hc : dictGet st.connections db_key = some h) :
    get_connector build st db_key connection_args = (.ok h, st) := by
  unfold get_connector
  simp [hc]

/-- Witness for C1 at a concrete registry holding handle 7 for env_astra:
the call returns handle 7 and the unchanged state, even though the build
function always fails and fresh parameters are supplied. -/
theorem get_connector_cache_hit_witness :
    get_connector (fun _ => .error "boom")
      { connection_params := [], connections := [("env_astra", ⟨7⟩)] }
      "env_astra" [("contact_points", "10.0.0.1")] =
      (.ok ⟨7⟩,
       { connection_params := [], connections := [("env_astra", ⟨7⟩)] }) :=
  get_connector_cache_hit _ _ _ _ _ (by decide)

/-- C5: when no handle is cached for a key, parameters for it are
available (after the possible step-2 store), and construction fails, then
get_connector raises the could-not-be-initialized ValueError for that key,
the handle cache is unchanged (the failure is not cached), and a next call
for the same key on the resulting state attempts construction again: with
a build function that now succeeds it returns the new handle. -/
theorem get_connector_failure_not_cached
    (build : Params → Except String Handle) (st : RegistryState)
    (db_key : String) (connection_args p : Params) (e : String)
    (hmiss : dictGet st.connections db_key = none)
    (hp : dictGet (storeParamsIfNew st db_key connection_args).connection_params
            db_key = some p)
    (hb : build p = .error e) :
    (get_connector build st db_key connection_args).1
        = .error (initFailedMsg db_key)
    ∧ (get_connector build st db_key connection_args).2.connections
        = st.connections
    ∧ ∀ (build2 : Params → Except String Handle) (h2 : Handle) (args2 : Params),
        build2 p = .ok h2 →
        (get_connector build2 (get_connector build st db_key connection_args).2
            db_key args2).1 = .ok h2 := by
  have hres : get_connector build st db_key connection_args
      = (.error (initFailedMsg db_key), storeParamsIfNew st db_key connection_args) := by
    unfold get_connector
    simp [hmiss, hp, hb]
  refine ⟨by rw [hres], ?_, ?_⟩
  · rw [hres]
    exact storeParamsIfNew_connections st db_key connection_args
  · intro build2 h2 args2 hb2
    rw [hres]
    unfold get_connector
    simp [storeParamsIfNew_connections, hmiss,
          storeParamsIfNew_stored _ _ _ _ hp, hp, hb2]

/-- Witness for C5 at a concrete empty-cache registry with stored
parameters for env_astra: the failing build raises the initialization
error, caches nothing, and a succeeding build on the next call returns
handle 3. -/
theorem get_connector_failure_not_cached_witness :
    (get_connector (fun _ => .error "connect refused")
        { connection_params := [("env_astra", [("token", "tok")])],
          connections := [] } "env_astra" []).1
      = .error (initFailedMsg "env_astra")
    ∧ (get_connector (fun _ => .error "connect refused")
        { connection_params := [("env_astra", [("token", "tok")])],
          connections := [] } "env_astra" []).2.connections = []
    ∧ ∀ (build2 : Params → Except String Handle) (h2 : Handle) (args2 : Params),
        build2 [("token", "tok")] = .ok h2 →
        (get_connector build2
            (get_connector (fun _ => .error "connect refused")
              { connection_params := [("env_astra", [("token", "tok")])],
                connections := [] } "env_astra" []).2 "env_astra" args2).1
          = .ok h2 :=
  get_connector_failure_not_cached _ _ _ _ _ _ (by decide) (by decide) rfl

/-- C9: once parameters are stored for a key, every later get_connector
call leaves the stored parameter map unchanged whatever override it
supplies, and whenever construction is attempted (no cached handle) it is
the stored parameters that are built, the override being ignored. -/
theorem stored_params_persist
    (build : Params → Except String Handle) (st : RegistryState)
    (db_key : String) (connection_args p : Params)
    (hp : dictGet st.connection_params db_key = some p) :
    (get_connector build st db_key connection_args).2.connection_params
        = st.connection_params
    ∧ (dictGet st.connections db_key = none →
        (get_connector build st db_key connection_args).1 =
          match build p with
          | .ok h => .ok h
          | .error _ => .error (initFailedMsg db_key)) := by
  constructor
  · unfold get_connector
    cases hc : dictGet st.connections db_key with
    | some h => simp [hc]
    | none =>
        simp [hc, storeParamsIfNew_stored _ _ _ _ hp, hp]
        cases build p <;> simp
  · intro hc
    unfold get_connector
    simp [hc, storeParamsIfNew_stored _ _ _ _ hp, hp]
    cases build p <;> simp

/-- Witness for C9 at a concrete registry whose stored parameters for
env_astra are the token dict: a call supplying a different override leaves
the stored parameters untouched, and construction builds the stored dict,
returning handle 9. -/
theorem stored_params_persist_witness :
    (get_connector (fun _ => Except.ok (⟨9⟩ : Handle))
        { connection_params := [("env_astra", [("token", "tok")])],
          connections := [] } "env_astra" [("token", "other")]).2.connection_params
      = [("env_astra", [("token", "tok")])]
    ∧ (dictGet (RegistryState.connections
          { connection_params := [("env_astra", [("token", "tok")])],
            connections := [] }) "env_astra" = none →
        (get_connector (fun _ => Except.ok (⟨9⟩ : Handle))
            { connection_params := [("env_astra", [("token", "tok")])],
              connections := [] } "env_astra" [("token", "other")]).1 =
          match (Except.ok ⟨9⟩ : Except String Handle) with
          | .ok h => Except.ok h
          | .error _ => Except.error (initFailedMsg "env_astra")) :=
  stored_params_persist _ _ _ _ [("token", "tok")] (by decide)

end CassandraConnectorManager

namespace CassandraConnector

/-- C2 (counter-evidence): the claim and the docstring of the session
accessor say that with new and replace both set, new wins and the primary
is untouched; but the source tests replace first, so evaluating the
accessor body at new = true and replace = true on a freshly constructed
connector runs the replace branch: the old primary session 0 is shut
down, the freshly opened session 1 becomes the primary, and session 1 is
returned, instead of an untracked extra session with primary 0 kept. -/
theorem session_new_and_replace_runs_replace_branch :
    (session initConn true true).2.primary = 1
    ∧ (session initConn true true).2.shutdown = [0]
    ∧ initConn.primary = 0
    ∧ (session initConn true true).1 = 1 := by decide

/-- C8: on any reachable connector state (the primary was handed out by
the cluster, so its id is below the session counter), calling the session
accessor with replace = true and new = false records the shutdown of the
old primary, installs the newly opened session as primary and returns it,
the returned session differs from the old primary, and a subsequent
no-argument call returns that same new session. -/
theorem session_replace_installs_new_primary
    (st : ConnState) (h : st.primary < st.sessions_created) :
    st.primary ∈ (session st false true).2.shutdown
    ∧ (session st false true).2.primary = (session st false true).1
    ∧ (session st false true).1 ≠ st.primary
    ∧ (session (session st false true).2 false false).1
        = (session st false true).1 := by
  refine ⟨?_, ?_, ?_, ?_⟩ <;> simp [session]
  omega

/-- Witness for C8 on a freshly constructed connector: replacing shuts
down session 0, the new primary is session 1, and the follow-up
no-argument access returns session 1. -/
theorem session_replace_installs_new_primary_witness :
    initConn.primary ∈ (session initConn false true).2.shutdown
    ∧ (session initConn false true).2.primary = (session initConn false true).1
    ∧ (session initConn false true).1 ≠ initConn.primary
    ∧ (session (session initConn false true).2 false false).1
        = (session initConn false true).1 :=
  session_replace_installs_new_primary initConn (by decide)

end CassandraConnector

namespace CassandraConnector

/-- C6: whenever the astra args carry a present, non-empty explicit bundle
path, resolution returns exactly that path, performs no network call and
writes nothing, independently of the whole environment (clock, cache
files, responses), so in particular no freshness check is applied. -/
theorem explicit_scb_short_circuit
    (env : ResolveEnv) (args : AstraArgs) (s : String)
    (h1 : args.scb = some s) (h2 : s ≠ "") :
    get_or_download_secure_connect_bundle env args =
      { result := .ok s, calls := [], wrote := none } := by
  unfold get_or_download_secure_connect_bundle
  simp [truthyStr, h1, h2]

/-- Witness for C6 at a concrete stale cache environment and an explicit
bundle path: the path comes back unchanged with an empty call trace. -/
theorem explicit_scb_short_circuit_witness :
    get_or_download_secure_connect_bundle
      { now := 100000000000, files := [], metaOk := true,
        metaData := some [⟨"r", "u"⟩], downloadOk := true }
      { token := "tok", scb := some "/home/me/bundle.zip" } =
      { result := .ok "/home/me/bundle.zip", calls := [], wrote := none } :=
  explicit_scb_short_circuit _ _ _ rfl (by decide)

/-- Helper: the region-not-found message never coincides with the
empty-metadata message (their lengths differ for every region name). -/
theorem notFound_ne_failedMsg (x : String) :
    "Specific bundle for region \x27" ++ x ++ "\x27 not found."
      ≠ "Failed to get secure bundle URLs." := by
  intro h
  have h2 := congrArg String.length h
  rw [String.length_append, String.length_append] at h2
  have e1 : "Specific bundle for region \x27".length = 28 := by decide
  have e2 : "\x27 not found.".length = 12 := by decide
  have e3 : "Failed to get secure bundle URLs.".length = 33 := by decide
  omega

/-- C10: a null metadata body and an empty metadata list both make URL
selection fail with the failed-to-get message, for every args; and for a
non-empty list that guard never fires (the first-entry access is reached
only behind the non-emptiness check). -/
theorem bundle_url_empty_metadata :
    (∀ args : AstraArgs,
      get_secure_connect_bundle_url args none
        = .error "Failed to get secure bundle URLs.")
    ∧ (∀ args : AstraArgs,
      get_secure_connect_bundle_url args (some [])
        = .error "Failed to get secure bundle URLs.")
    ∧ (∀ (args : AstraArgs) (l : List BundleEntry), l ≠ [] →
      get_secure_connect_bundle_url args (some l)
        ≠ .error "Failed to get secure bundle URLs.") := by
  refine ⟨fun args => rfl, fun args => rfl, fun args l hl => ?_⟩
  simp only [get_secure_connect_bundle_url]
  rw [dif_neg (by simpa using hl)]
  by_cases hr : truthyStr args.regionName = true
  · simp only [hr, if_true]
    cases hf : l.find? (fun b => b.region == args.regionName.getD "") with
    | some b => simp
    | none => simp [notFound_ne_failedMsg]
  · simp only [Bool.not_eq_true] at hr
    simp [hr]

/-- Witness for C10: at a concrete args both degenerate bodies produce the
failed-to-get error, and a concrete one-entry list does not. -/
theorem bundle_url_empty_metadata_witness :
    get_secure_connect_bundle_url { token := "tok" } none
      = .error "Failed to get secure bundle URLs."
    ∧ get_secure_connect_bundle_url { token := "tok" } (some [])
      = .error "Failed to get secure bundle URLs."
    ∧ get_secure_connect_bundle_url { token := "tok" } (some [⟨"r", "u"⟩])
      ≠ .error "Failed to get secure bundle URLs." :=
  ⟨bundle_url_empty_metadata.1 _, bundle_url_empty_metadata.2.1 _,
   bundle_url_empty_metadata.2.2 _ [⟨"r", "u"⟩] (by decide)⟩

end CassandraConnector

namespace CassandraConnector

/-- C4: for every args with a truthy endpoint and no truthy explicit
values, derivation strips the provider suffix from the endpoint host,
splits on the dash, and sets the datacenter id to the first five segments
rejoined and the region to the remaining segments rejoined; on the host
aaaaa-bbbbb-ccccc-ddddd-eeeee-fffff.apps.astra.datastax.com this yields
the datacenter id aaaaa-bbbbb-ccccc-ddddd-eeeee and the region fffff; and
a truthy caller-supplied datacenter id or region survives derivation
unchanged, taking precedence over the derived value. -/
theorem endpoint_derivation :
    (∀ args : AstraArgs,
        truthyStr args.endpoint = true →
        truthyStr args.datacenterID = false →
        truthyStr args.regionName = false →
        deriveArgs args = .ok { args with
          datacenterID := some (String.intercalate "-"
            ((pySplit ((pySplit (urlparseNetloc (args.endpoint.getD ""))
                PROVIDER_SUFFIX).headD "") "-").take 5)),
          regionName := some (String.intercalate "-"
            ((pySplit ((pySplit (urlparseNetloc (args.endpoint.getD ""))
                PROVIDER_SUFFIX).headD "") "-").drop 5)) })
    ∧ deriveArgs
        { token := "tok",
          endpoint :=
            some "https://aaaaa-bbbbb-ccccc-ddddd-eeeee-fffff.apps.astra.datastax.com" }
        = .ok
            { token := "tok",
              endpoint :=
                some "https://aaaaa-bbbbb-ccccc-ddddd-eeeee-fffff.apps.astra.datastax.com",
              datacenterID := some "aaaaa-bbbbb-ccccc-ddddd-eeeee",
              regionName := some "fffff" }
    ∧ (∀ args : AstraArgs,
        truthyStr args.endpoint = true →
        truthyStr args.datacenterID = true →
        ∃ args2, deriveArgs args = .ok args2
          ∧ args2.datacenterID = args.datacenterID)
    ∧ (∀ args : AstraArgs,
        truthyStr args.endpoint = true →
        truthyStr args.regionName = true →
        ∃ args2, deriveArgs args = .ok args2
          ∧ args2.regionName = args.regionName) := by
  refine ⟨?_, by decide, ?_, ?_⟩
  · intro args h1 h2 h3
    unfold deriveArgs
    simp [h1, h2, h3]
  · intro args h1 h2
    refine ⟨{ args with
        datacenterID := some (args.datacenterID.getD ""),
        regionName := some (if truthyStr args.regionName then args.regionName.getD ""
          else String.intercalate "-"
            ((pySplit ((pySplit (urlparseNetloc (args.endpoint.getD ""))
              PROVIDER_SUFFIX).headD "") "-").drop 5)) }, ?_, ?_⟩
    · unfold deriveArgs
      simp [h1, h2]
    · cases hdc : args.datacenterID with
      | none => rw [hdc] at h2; simp [truthyStr] at h2
      | some s => simp [hdc]
  · intro args h1 h2
    refine ⟨{ args with
        datacenterID := some (if truthyStr args.datacenterID then args.datacenterID.getD ""
          else String.intercalate "-"
            ((pySplit ((pySplit (urlparseNetloc (args.endpoint.getD ""))
              PROVIDER_SUFFIX).headD "") "-").take 5)),
        regionName := some (args.regionName.getD "") }, ?_, ?_⟩
    · unfold deriveArgs
      simp [h1, h2]
    · cases hrn : args.regionName with
      | none => rw [hrn] at h2; simp [truthyStr] at h2
      | some s => simp [hrn]

/-- Witness for C4: the derivation conjuncts applied at concrete args: a
bare endpoint derives both fields; explicit values supplied next to the
same endpoint are kept. -/
theorem endpoint_derivation_witness :
    deriveArgs
      { token := "tok",
        endpoint :=
          some "https://aaaaa-bbbbb-ccccc-ddddd-eeeee-fffff.apps.astra.datastax.com" }
      = .ok
        { token := "tok",
          endpoint :=
            some "https://aaaaa-bbbbb-ccccc-ddddd-eeeee-fffff.apps.astra.datastax.com",
          datacenterID := some (String.intercalate "-"
            ((pySplit ((pySplit (urlparseNetloc
                ((some "https://aaaaa-bbbbb-ccccc-ddddd-eeeee-fffff.apps.astra.datastax.com").getD ""))
                PROVIDER_SUFFIX).headD "") "-").take 5)),
          regionName := some (String.intercalate "-"
            ((pySplit ((pySplit (urlparseNetloc
                ((some "https://aaaaa-bbbbb-ccccc-ddddd-eeeee-fffff.apps.astra.datastax.com").getD ""))
                PROVIDER_SUFFIX).headD "") "-").drop 5)) }
    ∧ (∃ args2, deriveArgs
        { token := "tok",
          endpoint :=
            some "https://aaaaa-bbbbb-ccccc-ddddd-eeeee-fffff.apps.astra.datastax.com",
          datacenterID := some "explicit-dc" } = .ok args2
        ∧ args2.datacenterID = AstraArgs.datacenterID
            { token := "tok",
              endpoint :=
                some "https://aaaaa-bbbbb-ccccc-ddddd-eeeee-fffff.apps.astra.datastax.com",
              datacenterID := some "explicit-dc" })
    ∧ (∃ args2, deriveArgs
        { token := "tok",
          endpoint :=
            some "https://aaaaa-bbbbb-ccccc-ddddd-eeeee-fffff.apps.astra.datastax.com",
          regionName := some "explicit-region" } = .ok args2
        ∧ args2.regionName = AstraArgs.regionName
            { token := "tok",
              endpoint :=
                some "https://aaaaa-bbbbb-ccccc-ddddd-eeeee-fffff.apps.astra.datastax.com",
              regionName := some "explicit-region" }) :=
  ⟨endpoint_derivation.1 _ (by decide) (by decide) (by decide),
   endpoint_derivation.2.2.1 _ (by decide) (by decide),
   endpoint_derivation.2.2.2 _ (by decide) (by decide)⟩

end CassandraConnector

namespace CassandraConnector

/-- C3: for a resolution without a truthy explicit bundle path whose
identifying fields derive successfully, if the deterministic cache file
exists with age at most the 360-day threshold then resolution returns its
path with no network call and no write; and if the file is absent or its
age strictly exceeds the threshold then (when the metadata POST passes,
URL selection yields u, and the download GET passes) resolution performs
exactly one metadata fetch followed by one download, overwrites the cache
file, and returns the cache path. -/
theorem bundle_freshness_dichotomy
    (env : ResolveEnv) (args args2 : AstraArgs)
    (hscb : truthyStr args.scb = false)
    (hd : deriveArgs args = .ok args2) :
    ((∃ m, dictGet env.files (scb_path_of args2) = some m ∧
        env.now - m ≤ SECONDS_360_DAYS) →
      get_or_download_secure_connect_bundle env args =
        { result := .ok (scb_path_of args2), calls := [], wrote := none })
    ∧ (∀ u : String,
        (dictGet env.files (scb_path_of args2) = none ∨
          ∃ m, dictGet env.files (scb_path_of args2) = some m ∧
            env.now - m > SECONDS_360_DAYS) →
        env.metaOk = true →
        get_secure_connect_bundle_url args2 env.metaData = .ok u →
        env.downloadOk = true →
        get_or_download_secure_connect_bundle env args =
          { result := .ok (scb_path_of args2),
            calls := [NetCall.metadataPost (bundleUrlFor args2) args2.token,
                      NetCall.download u],
            wrote := some (scb_path_of args2) }) := by
  constructor
  · rintro ⟨m, hm, hle⟩
    unfold get_or_download_secure_connect_bundle
    simp [hscb, hd, hm, hle]
  · rintro u hstale hmeta hurl hdl
    unfold get_or_download_secure_connect_bundle
    rcases hstale with hnone | ⟨m, hm, hgt⟩
    · simp [hscb, hd, hnone, hmeta, hurl, hdl]
    · have hnle : ¬ (env.now - m ≤ SECONDS_360_DAYS) := by omega
      simp [hscb, hd, hm, hnle, hmeta, hurl, hdl]

/-- Concrete astra args used by the freshness witness. -/
def args_dc1r1 : AstraArgs :=
  { token := "tok", datacenterID := some "dc1", regionName := some "r1" }

/-- Witness for C3 at concrete inputs for both branches: with datacenter
dc1 and region r1, a cache entry aged 500 seconds is returned with no
calls, while a cache entry aged beyond the threshold triggers the POST
and the GET of the matching URL and rewrites the cache file. -/
theorem bundle_freshness_dichotomy_witness :
    get_or_download_secure_connect_bundle
      { now := 1000, files := [(scb_path_of args_dc1r1, 500)],
        metaOk := false, metaData := none, downloadOk := false }
      args_dc1r1
      = { result := .ok (scb_path_of args_dc1r1), calls := [], wrote := none }
    ∧ get_or_download_secure_connect_bundle
        { now := 40000000, files := [(scb_path_of args_dc1r1, 0)],
          metaOk := true, metaData := some [⟨"r1", "https://dl.example/b.zip"⟩],
          downloadOk := true }
        args_dc1r1
      = { result := .ok (scb_path_of args_dc1r1),
          calls := [NetCall.metadataPost (bundleUrlFor args_dc1r1) "tok",
                    NetCall.download "https://dl.example/b.zip"],
          wrote := some (scb_path_of args_dc1r1) } :=
  ⟨(bundle_freshness_dichotomy _ _ _ (by decide) (by decide)).1
      ⟨500, by decide, by decide⟩,
   (bundle_freshness_dichotomy _ _ _ (by decide) (by decide)).2
      "https://dl.example/b.zip"
      (Or.inr ⟨0, by decide, by decide⟩) rfl (by decide) rfl⟩

end CassandraConnector

namespace CassandraConnector

/-- C7 (counter-evidence): the claim quantifies over every metadata
response list, but on the empty list with a requested region the code
raises the failed-to-get-secure-bundle-URLs error from the emptiness
guard, not the region-not-found error the claim announces for a region
matching no entry. -/
theorem bundle_url_region_selection_empty_counterexample :
    get_secure_connect_bundle_url { token := "tok", regionName := some "nowhere" }
        (some ([] : List BundleEntry))
      = .error "Failed to get secure bundle URLs."
    ∧ get_secure_connect_bundle_url { token := "tok", regionName := some "nowhere" }
        (some ([] : List BundleEntry))
      ≠ .error ("Specific bundle for region \x27nowhere\x27 not found.") := by
  decide

/-- C7 (amended with non-emptiness of the list, which the empty-list
counterexample forces): for every non-empty metadata list and non-empty
requested region r: if some entry has region r then URL selection returns
the downloadURL of such an entry; if no entry has region r then selection
fails with the region-not-found error, and a whole bundle resolution
hitting that case performs no download call; and when no region is
requested the first entry provides the URL. -/
theorem bundle_url_region_selection
    (data : List BundleEntry) (r : String) (hr : r ≠ "") :
    (∀ args : AstraArgs, args.regionName = some r →
       (∃ b ∈ data, b.region = r) →
       ∃ b ∈ data, b.region = r ∧
         get_secure_connect_bundle_url args (some data) = .ok b.downloadURL)
    ∧ (∀ args : AstraArgs, args.regionName = some r →
       data ≠ [] → (∀ b ∈ data, b.region ≠ r) →
       get_secure_connect_bundle_url args (some data)
         = .error ("Specific bundle for region \x27" ++ r ++ "\x27 not found."))
    ∧ (∀ args : AstraArgs, args.regionName = none → data ≠ [] →
       get_secure_connect_bundle_url args (some data)
         = .ok ((data.headD ⟨"", ""⟩).downloadURL))
    ∧ (∀ (env : ResolveEnv) (args args2 : AstraArgs),
       truthyStr args.scb = false →
       deriveArgs args = .ok args2 →
       dictGet env.files (scb_path_of args2) = none →
       env.metaOk = true → env.metaData = some data →
       args2.regionName = some r → data ≠ [] → (∀ b ∈ data, b.region ≠ r) →
       (get_or_download_secure_connect_bundle env args).result
           = .error ("Specific bundle for region \x27" ++ r ++ "\x27 not found.")
       ∧ ∀ u, NetCall.download u ∉
           (get_or_download_secure_connect_bundle env args).calls) := by
  have hne : ∀ l : List BundleEntry, l ≠ [] → ¬ l.length = 0 := by
    intro l hl h
    exact hl (List.length_eq_zero.mp h)
  have hnomatch : ∀ args : AstraArgs, args.regionName = some r →
      data ≠ [] → (∀ b ∈ data, b.region ≠ r) →
      get_secure_connect_bundle_url args (some data)
        = .error ("Specific bundle for region \x27" ++ r ++ "\x27 not found.") := by
    intro args hargs hdata hno
    have hf : data.find? (fun b => b.region == r) = none := by
      apply List.find?_eq_none.mpr
      intro b hb
      simpa using hno b hb
    simp only [get_secure_connect_bundle_url]
    rw [dif_neg (hne data hdata)]
    simp [hargs, truthyStr, hr, hf]
  refine ⟨?_, hnomatch, ?_, ?_⟩
  · intro args hargs hex
    obtain ⟨b0, hb0, hb0r⟩ := hex
    have hdata : data ≠ [] := by
      rintro rfl
      exact (List.not_mem_nil b0) hb0
    cases hf : data.find? (fun b => b.region == r) with
    | none =>
        exfalso
        have hnone := List.find?_eq_none.mp hf b0 hb0
        simp [hb0r] at hnone
    | some b =>
        refine ⟨b, List.mem_of_find?_eq_some hf, ?_, ?_⟩
        · have hpred := List.find?_some hf
          simpa using hpred
        · simp only [get_secure_connect_bundle_url]
          rw [dif_neg (hne data hdata)]
          simp [hargs, truthyStr, hr, hf]
  · intro args hargs hdata
    simp only [get_secure_connect_bundle_url]
    rw [dif_neg (hne data hdata)]
    simp [hargs, truthyStr]
    cases data with
    | nil => exact absurd rfl hdata
    | cons b rest => rfl
  · intro env args args2 hscb hd hfile hmeta hbody hreg hdata hno
    have hurl : get_secure_connect_bundle_url args2 env.metaData
        = .error ("Specific bundle for region \x27" ++ r ++ "\x27 not found.") := by
      rw [hbody]
      exact hnomatch args2 hreg hdata hno
    have hres : get_or_download_secure_connect_bundle env args =
        { result := .error ("Specific bundle for region \x27" ++ r ++ "\x27 not found."),
          calls := [NetCall.metadataPost (bundleUrlFor args2) args2.token],
          wrote := none } := by
      unfold get_or_download_secure_connect_bundle
      simp [hscb, hd, hfile, hmeta, hurl]
    rw [hres]
    exact ⟨rfl, by intro u; simp⟩

/-- Concrete two-entry metadata list used by the C7 witness. -/
def data_r1r2 : List BundleEntry := [⟨"r1", "u1"⟩, ⟨"r2", "u2"⟩]

/-- Concrete astra args requesting the absent region r9. -/
def args_dc9r9 : AstraArgs :=
  { token := "tok", datacenterID := some "dc9", regionName := some "r9" }

/-- Concrete environment whose metadata POST returns the two-entry list. -/
def env_r1r2 : ResolveEnv :=
  { now := 0, files := [], metaOk := true, metaData := some data_r1r2,
    downloadOk := true }

/-- Witness for C7 on the concrete two-entry list: the entry of region r2
is selected for r2, requesting r9 fails with the not-found error and a
full resolution for r9 performs no download, and with no requested region
the first entry wins. -/
theorem bundle_url_region_selection_witness :
    (∃ b ∈ data_r1r2, b.region = "r2" ∧
       get_secure_connect_bundle_url { token := "tok", regionName := some "r2" }
         (some data_r1r2) = .ok b.downloadURL)
    ∧ get_secure_connect_bundle_url { token := "tok", regionName := some "r9" }
        (some data_r1r2)
        = .error ("Specific bundle for region \x27" ++ "r9" ++ "\x27 not found.")
    ∧ get_secure_connect_bundle_url { token := "tok" } (some data_r1r2)
        = .ok ((data_r1r2.headD ⟨"", ""⟩).downloadURL)
    ∧ ((get_or_download_secure_connect_bundle env_r1r2 args_dc9r9).result
        = .error ("Specific bundle for region \x27" ++ "r9" ++ "\x27 not found.")
      ∧ ∀ u, NetCall.download u ∉
          (get_or_download_secure_connect_bundle env_r1r2 args_dc9r9).calls) :=
  ⟨(bundle_url_region_selection data_r1r2 "r2" (by decide)).1 _ rfl
      ⟨⟨"r2", "u2"⟩, by decide, rfl⟩,
   (bundle_url_region_selection data_r1r2 "r9" (by decide)).2.1 _ rfl (by decide)
      (by decide),
   (bundle_url_region_selection data_r1r2 "r1" (by decide)).2.2.1 _ rfl (by decide),
   (bundle_url_region_selection data_r1r2 "r9" (by decide)).2.2.2 env_r1r2
      args_dc9r9 args_dc9r9 (by decide) (by decide) (by decide) rfl rfl rfl
      (by decide) (by decide)⟩

end CassandraConnector
